import Mathlib

set_option maxRecDepth 100000

/-!
Verification of the MassMailer repository: a shallow embedding of
`src/massmailer/app.py` and `src/massmailer/send_kra_emails.py`.

Rows of the uploaded spreadsheet are modelled as records of five string
fields; the filesystem is modelled as the list of paths that exist; the
mail transport is modelled as a function from attempt number to success,
and every transport invocation and retry pause is recorded as an event so
that theorems can speak about what the dispatcher actually did.
-/

/-- Model of Python str on a nonnegative int: decimal digits, most
significant first, computed with explicit fuel so that it reduces in the
kernel. -/
def digitChar (d : Nat) : Char := Char.ofNat (48 + d)

def digitsAux : Nat → Nat → List Char
  | 0, _ => []
  | fuel+1, n => if n < 10 then [digitChar n] else digitsAux fuel (n / 10) ++ [digitChar (n % 10)]

def digits (n : Nat) : List Char := digitsAux (n + 1) n

def pyStr (n : Nat) : String := String.mk (digits n)

/-- Model of the Python slice `s[-2:]`: the last two characters (the whole
string when it is shorter). -/
def lastTwoStr (s : String) : String := String.mk (s.data.drop (s.data.length - 2))

/-- Model of Python `str.strip()`: remove leading and trailing whitespace. -/
def pyStrip (s : String) : String :=
  String.mk (((s.data.dropWhile Char.isWhitespace).reverse.dropWhile Char.isWhitespace).reverse)

/-- Model of Python `str.split()` with no argument: split on whitespace
runs, discarding empty pieces. -/
def splitWsAux : List Char → List Char → List String
  | [], cur => if cur.isEmpty then [] else [String.mk cur.reverse]
  | c :: cs, cur =>
    if c.isWhitespace then
      if cur.isEmpty then splitWsAux cs []
      else String.mk cur.reverse :: splitWsAux cs []
    else splitWsAux cs (c :: cur)

def pySplitWs (s : String) : List String := splitWsAux s.data []

/-- Model of the Python substring test `sub in s`. -/
def listContainsSub (pat : List Char) : List Char → Bool
  | [] => pat.isEmpty
  | c :: rest => pat.isPrefixOf (c :: rest) || listContainsSub pat rest

def strContains (s sub : String) : Bool := listContainsSub sub.data s.data

/-- Model of replacing every (non-overlapping, leftmost-first) occurrence
of a pattern, the effect of a Jinja2 variable substitution on templates
that contain the variable token verbatim.  Fuel is the length of the
scanned list. -/
def listReplace (pat rep : List Char) : Nat → List Char → List Char
  | 0, s => s
  | _+1, [] => []
  | fuel+1, c :: rest =>
    if pat.isPrefixOf (c :: rest) then rep ++ listReplace pat rep fuel ((c :: rest).drop pat.length)
    else c :: listReplace pat rep fuel rest

def strReplace (s pat rep : String) : String :=
  String.mk (listReplace pat.data rep.data s.data.length s.data)

/-- Model of Python formatting a list of strings, `f"{cc_emails}"`. -/
def pyReprList (l : List String) : String :=
  "[" ++ String.intercalate ", " (l.map (fun s => "\'" ++ s ++ "\'")) ++ "]"

/-- One spreadsheet row: the five required columns. -/
structure Row where
  associateID : String
  associateName : String
  associateEmail : String
  clEmail : String
  pmEmail : String
deriving DecidableEq

/-- One validation issue: the tuple `(column, message, suggestion)`
appended by `validate_excel_data`. -/
structure Issue where
  field : String
  message : String
  suggestion : String
deriving DecidableEq

/-- The transport configuration dictionary built at the top of app.py from
the environment: `MAIL_SERVER` and `MAIL_USERNAME` may be absent,
`MAIL_PORT` is an int with default 25. -/
structure Config where
  MAIL_SERVER : Option String
  MAIL_PORT : Nat
  MAIL_USERNAME : Option String
deriving DecidableEq

/-- Python truthiness of an optional string. -/
def truthy : Option String → Bool
  | none => false
  | some s => !s.data.isEmpty

/-- Everything the dispatcher does that is visible outside the process:
one transport invocation (an SMTP `sendmail` in app.py, a `mail.send` in
send_kra_emails.py) or one blocking `time.sleep`. -/
inductive Event where
  | attempt (toEmail : String) (attemptNo : Nat) (withAttachment : Bool)
  | sleep (duration : Rat)
deriving DecidableEq

def isAttempt : Event → Bool
  | .attempt _ _ _ => true
  | .sleep _ => false

def attemptCount (evs : List Event) : Nat := (evs.filter isAttempt).length

/-- The shared retry loop body: try the transport at the current attempt
number; on success stop, on exception log, sleep for `delay`, and go
round again while iterations remain.  app.py runs it for
`range(1, retries + 2)` and send_kra_emails.py for `range(1, retries + 1)`. -/
def retryFrom (sendOk : Nat → Bool) (toEmail : String) (withAttachment : Bool) (delay : Rat) :
    Nat → Nat → Bool × List Event
  | _, 0 => (false, [])
  | attemptNo, rem + 1 =>
    if sendOk attemptNo then (true, [Event.attempt toEmail attemptNo withAttachment])
    else
      let r := retryFrom sendOk toEmail withAttachment delay (attemptNo + 1) rem
      (r.1, Event.attempt toEmail attemptNo withAttachment :: Event.sleep delay :: r.2)

/-- The event trace left by a transport that fails on every attempt: `k`
attempts starting at attempt number `s`, each followed by the configured
delay. -/
def failTrace (toEmail : String) (withAttachment : Bool) (delay : Rat) : Nat → Nat → List Event
  | _, 0 => []
  | s, k + 1 =>
    Event.attempt toEmail s withAttachment :: Event.sleep delay
      :: failTrace toEmail withAttachment delay (s + 1) k

namespace App

def emailDomain : String := "@senecaglobal.com"

def kraDir : String := ".temp/kra_files/pdf_files/"

/-- The issues `validate_excel_data` collects for one row, in append
order.  `fs` is the list of filesystem paths that exist. -/
def validateRow (fs : List String) (row : Row) : List Issue :=
  let associate_name := pyStrip row.associateName
  let associate_id := pyStrip row.associateID
  let to_email := pyStrip row.associateEmail
  let cl_email := pyStrip row.clEmail
  let pm_email := pyStrip row.pmEmail
  (if to_email.data.isEmpty || !(strContains to_email emailDomain) then
    [⟨"Associate Email", "Invalid Associate Email ‚Äì " ++ to_email, to_email⟩] else [])
  ++ (if cl_email.data.isEmpty || !(strContains cl_email emailDomain) then
    [⟨"CL Email", "Invalid CL Email ‚Äì " ++ cl_email, cl_email⟩] else [])
  ++ (if pm_email.data.isEmpty || !(strContains pm_email emailDomain) then
    [⟨"PM Email", "Invalid PM Email ‚Äì " ++ pm_email, pm_email⟩] else [])
  ++ (if !(strContains associate_id "N") then
    [⟨"AssociateID", "Invalid Associate ID ‚Äì " ++ associate_id, associate_id⟩] else [])
  ++ (if (pySplitWs associate_name).length < 2 then
    [⟨"AssociateName", "AssociateName should be \'Firstname Lastname\' ‚Äì " ++ associate_name, associate_name⟩] else [])
  ++ (if !(fs.contains (kraDir ++ associate_name ++ ".pdf")) then
    [⟨"KRA File", "Missing KRA file for " ++ associate_name, ""⟩] else [])

/-- The row-by-row loop of `validate_excel_data`: an entry is added to the
error map only when the row has at least one issue. -/
def validateAux (fs : List String) : Nat → List Row → List (Nat × List Issue)
  | _, [] => []
  | idx, row :: rest =>
    let issues := validateRow fs row
    if issues.isEmpty then validateAux fs (idx + 1) rest
    else (idx, issues) :: validateAux fs (idx + 1) rest

def validate_excel_data (fs : List String) (df : List Row) : List (Nat × List Issue) :=
  validateAux fs 0 df

/-- `get_year_range` from app.py, parameterised by the ambient current
year: the display string built from the current year and the last two
characters of the decimal representation of the next year. -/
def get_year_range (current_year : Nat) : String :=
  let next_year_short := lastTwoStr (pyStr (current_year + 1))
  pyStr current_year ++ "-" ++ next_year_short

/-- `send_email_with_retry` from app.py: the loop runs for
`attempt in range(1, retries + 2)`, so `retries + 1` iterations; the
message attaches the PDF only when the attachment path exists
(`withAttachment`). -/
def send_email_with_retry (sendOk : Nat → Bool) (toEmail : String) (withAttachment : Bool)
    (retries : Nat) (delay : Rat) : Bool × List Event :=
  retryFrom sendOk toEmail withAttachment delay 1 (retries + 1)

/-- The `raise ValueError` check at the top of `send_bulk_emails`: the
first config key whose value is falsy, in dict order. -/
def missingConfigKey (c : Config) : Option String :=
  if !(truthy c.MAIL_SERVER) then some "MAIL_SERVER"
  else if c.MAIL_PORT == 0 then some "MAIL_PORT"
  else if !(truthy c.MAIL_USERNAME) then some "MAIL_USERNAME"
  else none

/-- Jinja2 rendering as app.py uses it:
`Template(template).render(associate=..., year_range=...)` substitutes the
two variable tokens wherever they occur. -/
def renderTemplate (template associate year_range : String) : String :=
  strReplace (strReplace template "\x7b\x7b associate \x7d\x7d" associate)
    "\x7b\x7b year_range \x7d\x7d" year_range

/-- What one iteration of the `send_bulk_emails` row loop produces: the
log line appended to `logs`, the rendered HTML body, and the transport
events. -/
structure RowResult where
  log : String
  body : String
  events : List Event
deriving DecidableEq

/-- One iteration of the row loop of `send_bulk_emails` in app.py: strip
the fields, resolve the attachment path, render the body, then either log
a dry-run preview or call `send_email_with_retry` (default arguments
`retries=1, delay=0.5`) and log `[SENT]` or `[FAILED]`. -/
def processRow (fs : List String) (sendOk : Nat → Bool) (dry_run : Bool)
    (template year_range : String) (row : Row) : RowResult :=
  let associate_name := pyStrip row.associateName
  let to_email := pyStrip row.associateEmail
  let cc_emails := [pyStrip row.clEmail, pyStrip row.pmEmail]
  let kra_path := kraDir ++ associate_name ++ ".pdf"
  let html_body := renderTemplate template associate_name year_range
  if dry_run then
    ⟨"[DRY-RUN] Able to send to " ++ associate_name ++ " with " ++ to_email
      ++ " | CC: " ++ pyReprList cc_emails, html_body, []⟩
  else
    let r := send_email_with_retry sendOk to_email (fs.contains kra_path) 1 (1 / 2)
    ⟨if r.1 then
        "[SENT] Email sent to " ++ associate_name ++ " with " ++ to_email
          ++ " | CC: " ++ pyReprList cc_emails
      else "[FAILED] Could not send email to " ++ associate_name ++ " with " ++ to_email,
      html_body, r.2⟩

/-- The row loop of `send_bulk_emails`; `sendOk` gives the transport
behaviour for each row index and attempt number. -/
def mapRows (fs : List String) (sendOk : Nat → Nat → Bool) (dry_run : Bool)
    (template year_range : String) : Nat → List Row → List RowResult
  | _, [] => []
  | i, row :: rest =>
    processRow fs (sendOk i) dry_run template year_range row
      :: mapRows fs sendOk dry_run template year_range (i + 1) rest

/-- `send_bulk_emails` from app.py, with the dataframe and template always
supplied (as the UI handlers do): check the config, raising before any row
is processed when a value is missing, then run the row loop. -/
def send_bulk_emails (cfg : Config) (fs : List String) (sendOk : Nat → Nat → Bool)
    (dry_run : Bool) (df : List Row) (template : String) (current_year : Nat) :
    Except String (List RowResult) :=
  match missingConfigKey cfg with
  | some k => Except.error ("Missing email config: " ++ k ++ " is not set in .env")
  | none => Except.ok (mapRows fs sendOk dry_run template (get_year_range current_year) 0 df)

/-- Outcome of pressing one of the two Streamlit buttons. -/
inductive UiOutcome where
  | templateMissing
  | validationErrors (errors : List (Nat × List Issue))
  | ran (result : Except String (List RowResult))

/-- The "Dry Run" button handler: reject an empty template, then validate;
previews run only when the validator found no errors at all. -/
def dryRunButton (cfg : Config) (fs : List String) (sendOk : Nat → Nat → Bool)
    (df : List Row) (template_input : String) (current_year : Nat) : UiOutcome :=
  if (pyStrip template_input).data.isEmpty then .templateMissing
  else
    let errors := validate_excel_data fs df
    if errors.isEmpty then .ran (send_bulk_emails cfg fs sendOk true df template_input current_year)
    else .validationErrors errors

/-- The "Send Emails" button handler: reject an empty template, then call
`send_bulk_emails` live — no validation step. -/
def sendEmailsButton (cfg : Config) (fs : List String) (sendOk : Nat → Nat → Bool)
    (df : List Row) (template_input : String) (current_year : Nat) : UiOutcome :=
  if (pyStrip template_input).data.isEmpty then .templateMissing
  else .ran (send_bulk_emails cfg fs sendOk false df template_input current_year)

/-- The built-in "Default Template" entry of `template_map` in app.py,
transcribed verbatim (the Jinja braces written as character escapes). -/
def default_template : String :=
  "\n<font face=\"Arial\" size=\"3\">\n<body>\nDear \x7b\x7b associate \x7d\x7d,\n<BR><BR>\n\n"
  ++ "IGNORE MY EARLIER EMAIL.\n<BR><BR>\n\n"
  ++ "We have defined goals and objectives for client delivery performance to achieve continual improvement and they are aligned to the key result areas (KRAs) of associates. The KRAs have been defined to improve work performance, teaming, collaboration and competence development of the associates. Please find attached a letter containing the description of KRAs applicable to you for the year 2025-26.\n<BR><BR>\n\n"
  ++ "Please discuss your KRAs with your Reporting Manager and implement appropriate action plan for improving your work performance and competence. Your performance against the KRAs will be monitored by your Reporting Manager and reviewed periodically by the Associate Development Review Committee. HR department will be in touch with you and provide necessary guidance for your work performance and competency development planning, implementation, and development reviews.\n<BR><BR>\n\n"
  ++ "All the best!!\n<BR>\n</body>\n</font>\n"

end App

namespace Kra

/-- Flask's `render_template_string(template, name=...)`: substitute the
`name` variable token. -/
def render (template name : String) : String :=
  strReplace template "\x7b\x7b name \x7d\x7d" name

/-- `send_email_with_retry` from send_kra_emails.py: the loop runs for
`attempt in range(1, retries + 1)`, so exactly `retries` iterations. -/
def send_email_with_retry (sendOk : Nat → Bool) (toEmail : String) (withAttachment : Bool)
    (retries : Nat) (delay : Rat) : Bool × List Event :=
  retryFrom sendOk toEmail withAttachment delay 1 retries

/-- One iteration of the row loop of `send_bulk_emails` in
send_kra_emails.py: the printed/logged lines, the built message body
(none when the row was skipped for a missing attachment), and the
transport events. -/
structure KraRowResult where
  logs : List String
  body : Option String
  events : List Event
deriving DecidableEq

/-- One iteration of the row loop in send_kra_emails.py: skip the row when
the KRA file is absent; otherwise render and build the message (always
with the attachment), then preview it or send it with `retries=3,
delay=3`. -/
def processRow (fs : List String) (sendOk : Nat → Bool) (dry_run : Bool)
    (template : String) (row : Row) : KraRowResult :=
  let kra_file_name := row.associateName ++ ".pdf"
  let kra_path := "kra_files/" ++ kra_file_name
  if !(fs.contains kra_path) then
    ⟨["Missing KRA file for " ++ row.associateName ++ ": " ++ kra_path], none, []⟩
  else
    let html_body := render template row.associateName
    if dry_run then
      ⟨["[DRY-RUN] Would send to " ++ row.associateName ++ " (" ++ row.associateEmail
          ++ "), CC: " ++ pyReprList [row.clEmail, row.pmEmail] ++ ", File: " ++ kra_file_name],
        some html_body, []⟩
    else
      let r := send_email_with_retry sendOk row.associateEmail true 3 3
      ⟨[if r.1 then "[SENT] Email sent to " ++ row.associateName ++ " (" ++ row.associateEmail ++ ")"
         else "[FAILED] Could not send email to " ++ row.associateName ++ " after retries."],
        some html_body, r.2⟩

/-- The row loop of `send_bulk_emails` in send_kra_emails.py. -/
def send_bulk_emails (fs : List String) (sendOk : Nat → Nat → Bool) (dry_run : Bool)
    (template : String) : Nat → List Row → List KraRowResult
  | _, [] => []
  | i, row :: rest =>
    processRow fs (sendOk i) dry_run template row
      :: send_bulk_emails fs sendOk dry_run template (i + 1) rest

end Kra

/-- Following the spec's words, for comparison with the code's
`get_year_range`: zero-pad a decimal string to two digits. -/
def padLeft2 (s : String) : String :=
  if s.data.length < 2 then String.mk ('0' :: s.data) else s

/-- Following the spec's words: the display string
`"{current_year}-{(current_year+1) mod 100, zero-padded to 2 digits}"`. -/
def specYearRange (current_year : Nat) : String :=
  pyStr current_year ++ "-" ++ padLeft2 (pyStr ((current_year + 1) % 100))

/-- The position of each validated column in the fixed order in which
`validate_excel_data` checks its rules. -/
def fieldRank (f : String) : Nat :=
  if f == "Associate Email" then 0
  else if f == "CL Email" then 1
  else if f == "PM Email" then 2
  else if f == "AssociateID" then 3
  else if f == "AssociateName" then 4
  else if f == "KRA File" then 5
  else 6

theorem data_mk (l : List Char) : (String.mk l).data = l := rfl

theorem digitsAux_congr : ∀ (f g n : Nat), n < f → n < g → digitsAux f n = digitsAux g n := by
  intro f
  induction f with
  | zero => intro g n h _; omega
  | succ f ih =>
    intro g n hf hg
    cases g with
    | zero => omega
    | succ g =>
      by_cases h10 : n < 10
      · simp [digitsAux, h10]
      · simp only [digitsAux, h10, if_false]
        rw [ih g (n / 10) (by omega) (by omega)]

theorem digits_small (n : Nat) (h : n < 10) : digits n = [digitChar n] := by
  show digitsAux (n + 1) n = _
  rw [show digitsAux (n + 1) n
      = if n < 10 then [digitChar n] else digitsAux n (n / 10) ++ [digitChar (n % 10)] from rfl,
    if_pos h]

theorem digits_step (n : Nat) (h : ¬ n < 10) :
    digits n = digits (n / 10) ++ [digitChar (n % 10)] := by
  show digitsAux (n + 1) n = _
  rw [show digitsAux (n + 1) n
      = if n < 10 then [digitChar n] else digitsAux n (n / 10) ++ [digitChar (n % 10)] from rfl,
    if_neg h]
  congr 1
  exact digitsAux_congr n (n / 10 + 1) (n / 10) (by omega) (by omega)

theorem digits_two (n : Nat) (h1 : 10 ≤ n) (h2 : n < 100) :
    digits n = [digitChar (n / 10), digitChar (n % 10)] := by
  rw [digits_step n (by omega), digits_small (n / 10) (by omega)]
  rfl

theorem lastTwoStr_pyStr (m : Nat) (h : 10 ≤ m) :
    lastTwoStr (pyStr m) = padLeft2 (pyStr (m % 100)) := by
  by_cases h100 : m < 100
  · have hd : digits m = [digitChar (m / 10), digitChar (m % 10)] := digits_two m h h100
    have hm : m % 100 = m := Nat.mod_eq_of_lt h100
    rw [hm]
    simp [lastTwoStr, pyStr, padLeft2, hd, data_mk]
  · have hd1 : digits m = digits (m / 10) ++ [digitChar (m % 10)] := digits_step m (by omega)
    have hd2 : digits (m / 10) = digits (m / 10 / 10) ++ [digitChar (m / 10 % 10)] :=
      digits_step (m / 10) (by omega)
    have hdd : m / 10 / 10 = m / 100 := by omega
    have hd3 : digits m = digits (m / 100) ++ [digitChar (m / 10 % 10), digitChar (m % 10)] := by
      rw [hd1, hd2, hdd, List.append_assoc]
      rfl
    have hdrop : (digits m).drop ((digits m).length - 2)
        = [digitChar (m / 10 % 10), digitChar (m % 10)] := by
      rw [hd3, List.length_append]
      have hl : (digits (m / 100)).length
          + [digitChar (m / 10 % 10), digitChar (m % 10)].length - 2
          = (digits (m / 100)).length := by simp
      rw [hl, List.drop_left]
    by_cases hsm : m % 100 < 10
    · have e1 : m / 10 % 10 = 0 := by omega
      have e2 : m % 10 = m % 100 := by omega
      have hds : digits (m % 100) = [digitChar (m % 100)] := digits_small _ hsm
      have h0 : digitChar 0 = '0' := rfl
      simp [lastTwoStr, pyStr, padLeft2, hds, hdrop, e1, e2, h0, data_mk]
    · have hds : digits (m % 100) = [digitChar (m % 100 / 10), digitChar (m % 100 % 10)] :=
        digits_two _ (by omega) (by omega)
      have e1 : m % 100 / 10 = m / 10 % 10 := by omega
      have e2 : m % 100 % 10 = m % 10 := by omega
      simp [lastTwoStr, pyStr, padLeft2, hds, hdrop, e1, e2, data_mk]

/-- C5: for each of the three email columns, validation records exactly the
issue naming that column (with its descriptive message and the offending
value as suggestion) precisely when that column is empty or lacks the
organisation domain, independently of every other column of the row — so
no short-circuiting, and no issue on a field that satisfies its own rule. -/
theorem c5_email_field_validation (fs : List String) (row : Row) :
    ((App.validateRow fs row).filter (fun i => i.field == "Associate Email") =
      (if (pyStrip row.associateEmail).data.isEmpty
          || !(strContains (pyStrip row.associateEmail) App.emailDomain) then
        [⟨"Associate Email", "Invalid Associate Email ‚Äì " ++ pyStrip row.associateEmail,
          pyStrip row.associateEmail⟩] else []))
  ∧ ((App.validateRow fs row).filter (fun i => i.field == "CL Email") =
      (if (pyStrip row.clEmail).data.isEmpty
          || !(strContains (pyStrip row.clEmail) App.emailDomain) then
        [⟨"CL Email", "Invalid CL Email ‚Äì " ++ pyStrip row.clEmail, pyStrip row.clEmail⟩]
       else []))
  ∧ ((App.validateRow fs row).filter (fun i => i.field == "PM Email") =
      (if (pyStrip row.pmEmail).data.isEmpty
          || !(strContains (pyStrip row.pmEmail) App.emailDomain) then
        [⟨"PM Email", "Invalid PM Email ‚Äì " ++ pyStrip row.pmEmail, pyStrip row.pmEmail⟩]
       else [])) := by
  refine ⟨?_, ?_, ?_⟩ <;>
    simp only [App.validateRow, List.filter_append] <;>
    split_ifs <;> simp_all

/-- C8: validation records the name-format issue exactly when the stripped
associate name splits into fewer than two whitespace-separated tokens; for
two-or-more-token names no name-format issue appears. -/
theorem c8_name_token_validation (fs : List String) (row : Row) :
    (App.validateRow fs row).filter (fun i => i.field == "AssociateName") =
      (if (pySplitWs (pyStrip row.associateName)).length < 2 then
        [⟨"AssociateName",
          "AssociateName should be \'Firstname Lastname\' ‚Äì " ++ pyStrip row.associateName,
          pyStrip row.associateName⟩] else []) := by
  simp only [App.validateRow, List.filter_append]
  split_ifs <;> simp_all

/-- C6 counterexample: at current year 8 the code builds "8-9" — the
second component of the dash-separated string is a single digit, not the
two-digit zero-padded "8-09" the claim requires for every current year. -/
theorem c6_counterexample :
    App.get_year_range 8 = "8-9" ∧ App.get_year_range 8 ≠ specYearRange 8
      ∧ specYearRange 8 = "8-09" := by
  refine ⟨by decide, by decide, by decide⟩

/-- C6 (amended): for every current year of at least 9 (so that the next
year has at least two decimal digits — every year reachable through the
datetime library's clock in practice), the computed display year-range
string equals `"{current_year}-{(current_year+1) mod 100, zero-padded to
2 digits}"`, with the second part exactly two digits. -/
theorem c6_year_range (current_year : Nat) (h : 9 ≤ current_year) :
    App.get_year_range current_year = specYearRange current_year := by
  simp only [App.get_year_range, specYearRange]
  rw [lastTwoStr_pyStr (current_year + 1) (by omega)]

theorem c6_witness : 9 ≤ 2025 ∧ App.get_year_range 2025 = specYearRange 2025 :=
  ⟨by omega, c6_year_range 2025 (by omega)⟩

theorem retryFrom_const_false (toEmail : String) (att : Bool) (delay : Rat) :
    ∀ (k s : Nat), retryFrom (fun _ => false) toEmail att delay s k
      = (false, failTrace toEmail att delay s k) := by
  intro k
  induction k with
  | zero => intro s; rfl
  | succ k ih => intro s; simp [retryFrom, failTrace, ih (s + 1)]

theorem attemptCount_failTrace (toEmail : String) (att : Bool) (delay : Rat) :
    ∀ (k s : Nat), attemptCount (failTrace toEmail att delay s k) = k := by
  intro k
  induction k with
  | zero => intro s; rfl
  | succ k ih =>
    intro s
    have h := ih (s + 1)
    unfold attemptCount at *
    simp [failTrace, List.filter_cons, isAttempt, h]

theorem processRow_body (fs : List String) (s : Nat → Bool) (b : Bool) (t yr : String)
    (row : Row) :
    (App.processRow fs s b t yr row).body
      = App.renderTemplate t (pyStrip row.associateName) yr := by
  cases b <;> rfl

theorem processRow_dry (fs : List String) (s : Nat → Bool) (t yr : String) (row : Row) :
    App.processRow fs s true t yr row =
      ⟨"[DRY-RUN] Able to send to " ++ pyStrip row.associateName ++ " with "
        ++ pyStrip row.associateEmail ++ " | CC: "
        ++ pyReprList [pyStrip row.clEmail, pyStrip row.pmEmail],
        App.renderTemplate t (pyStrip row.associateName) yr, []⟩ := rfl

theorem processRow_fail (fs : List String) (t yr : String) (row : Row) :
    App.processRow fs (fun _ => false) false t yr row =
      ⟨"[FAILED] Could not send email to " ++ pyStrip row.associateName ++ " with "
        ++ pyStrip row.associateEmail,
        App.renderTemplate t (pyStrip row.associateName) yr,
        failTrace (pyStrip row.associateEmail)
          (fs.contains (App.kraDir ++ pyStrip row.associateName ++ ".pdf")) (1 / 2) 1 2⟩ := by
  simp only [App.processRow, App.send_email_with_retry,
    retryFrom_const_false (pyStrip row.associateEmail)
      (fs.contains (App.kraDir ++ pyStrip row.associateName ++ ".pdf")) (1 / 2) (1 + 1) 1]
  rfl

theorem mapRows_length (fs : List String) (s : Nat → Nat → Bool) (b : Bool) (t yr : String) :
    ∀ (k : Nat) (df : List Row), (App.mapRows fs s b t yr k df).length = df.length := by
  intro k df
  induction df generalizing k with
  | nil => rfl
  | cons r rest ih => simp [App.mapRows, ih (k + 1)]

theorem mapRows_bodies (fs : List String) (s : Nat → Nat → Bool) (b : Bool) (t yr : String) :
    ∀ (k : Nat) (df : List Row), (App.mapRows fs s b t yr k df).map App.RowResult.body
      = df.map (fun row => App.renderTemplate t (pyStrip row.associateName) yr) := by
  intro k df
  induction df generalizing k with
  | nil => rfl
  | cons r rest ih => simp [App.mapRows, processRow_body, ih (k + 1)]

theorem mapRows_dry (fs : List String) (s : Nat → Nat → Bool) (t yr : String) :
    ∀ (k : Nat) (df : List Row), App.mapRows fs s true t yr k df
      = df.map (fun row =>
          ⟨"[DRY-RUN] Able to send to " ++ pyStrip row.associateName ++ " with "
            ++ pyStrip row.associateEmail ++ " | CC: "
            ++ pyReprList [pyStrip row.clEmail, pyStrip row.pmEmail],
            App.renderTemplate t (pyStrip row.associateName) yr, []⟩) := by
  intro k df
  induction df generalizing k with
  | nil => rfl
  | cons r rest ih => simp [App.mapRows, processRow_dry, ih (k + 1)]

theorem mapRows_fail (fs : List String) (t yr : String) :
    ∀ (k : Nat) (df : List Row), App.mapRows fs (fun _ _ => false) false t yr k df
      = df.map (fun row =>
          ⟨"[FAILED] Could not send email to " ++ pyStrip row.associateName ++ " with "
            ++ pyStrip row.associateEmail,
            App.renderTemplate t (pyStrip row.associateName) yr,
            failTrace (pyStrip row.associateEmail)
              (fs.contains (App.kraDir ++ pyStrip row.associateName ++ ".pdf")) (1 / 2) 1 2⟩) := by
  intro k df
  induction df generalizing k with
  | nil => rfl
  | cons r rest ih => simp [App.mapRows, processRow_fail, ih (k + 1)]

theorem validateAux_nil_iff (fs : List String) :
    ∀ (df : List Row) (k : Nat), App.validateAux fs k df = []
      ↔ ∀ row ∈ df, App.validateRow fs row = [] := by
  intro df
  induction df with
  | nil => intro k; simp [App.validateAux]
  | cons r rest ih =>
    intro k
    simp only [App.validateAux]
    by_cases h : (App.validateRow fs r).isEmpty
    · rw [if_pos h, ih (k + 1)]
      have hnil : App.validateRow fs r = [] := by simpa using h
      simp [hnil]
    · rw [if_neg h]
      have hne : App.validateRow fs r ≠ [] := by simpa using h
      simp [hne]

theorem validate_excel_data_nil_iff (fs : List String) (df : List Row) :
    App.validate_excel_data fs df = [] ↔ ∀ row ∈ df, App.validateRow fs row = [] :=
  validateAux_nil_iff fs df 0

theorem validateAux_mem_iff (fs : List String) :
    ∀ (df : List Row) (k i : Nat) (issues : List Issue),
      ((i, issues) ∈ App.validateAux fs k df) ↔
        ∃ j r, df[j]? = some r ∧ i = k + j ∧ issues = App.validateRow fs r ∧ issues ≠ [] := by
  intro df
  induction df with
  | nil => intro k i issues; simp [App.validateAux]
  | cons row rest ih =>
    intro k i issues
    simp only [App.validateAux]
    constructor
    · intro hmem
      by_cases h : (App.validateRow fs row).isEmpty
      · rw [if_pos h] at hmem
        obtain ⟨j, r, hj, hi, hiss, hne⟩ := (ih (k + 1) i issues).mp hmem
        exact ⟨j + 1, r, by simpa using hj, by omega, hiss, hne⟩
      · rw [if_neg h] at hmem
        rcases List.mem_cons.mp hmem with heq | hmem'
        · have h1 : i = k := congrArg Prod.fst heq
          have h2 : issues = App.validateRow fs row := congrArg Prod.snd heq
          refine ⟨0, row, by simp, by omega, h2, ?_⟩
          rw [h2]
          simpa using h
        · obtain ⟨j, r, hj, hi, hiss, hne⟩ := (ih (k + 1) i issues).mp hmem'
          exact ⟨j + 1, r, by simpa using hj, by omega, hiss, hne⟩
    · rintro ⟨j, r, hj, hi, hiss, hne⟩
      cases j with
      | zero =>
        have hr : row = r := by simpa using hj
        subst hr
        have h : ¬ (App.validateRow fs row).isEmpty = true := by
          rw [List.isEmpty_iff]
          rw [hiss] at hne
          exact hne
        rw [if_neg h]
        have : (i, issues) = (k, App.validateRow fs row) := by
          rw [hiss]
          simp [hi]
        rw [this]
        exact List.mem_cons_self _ _
      | succ j' =>
        have hj' : rest[j']? = some r := by simpa using hj
        have hmem' := (ih (k + 1) i issues).mpr ⟨j', r, hj', by omega, hiss, hne⟩
        by_cases h : (App.validateRow fs row).isEmpty
        · rw [if_pos h]; exact hmem'
        · rw [if_neg h]; exact List.mem_cons_of_mem _ hmem'

theorem validate_excel_data_mem_iff (fs : List String) (df : List Row) (i : Nat)
    (issues : List Issue) :
    ((i, issues) ∈ App.validate_excel_data fs df) ↔
      ∃ r, df[i]? = some r ∧ issues = App.validateRow fs r ∧ issues ≠ [] := by
  unfold App.validate_excel_data
  rw [validateAux_mem_iff]
  constructor
  · rintro ⟨j, r, hj, hi, hiss, hne⟩
    refine ⟨r, ?_, hiss, hne⟩
    have : i = j := by omega
    rw [this]
    exact hj
  · rintro ⟨r, hi, hiss, hne⟩
    exact ⟨i, r, hi, by omega, hiss, hne⟩

theorem sublist_if_block {c : Prop} [Decidable c] (x : Issue) (n : Nat)
    (h : fieldRank x.field = n) :
    ((if c then [x] else []).map (fun i => fieldRank i.field)).Sublist [n] := by
  split <;> simp [h]

theorem validateRow_ranks_sublist (fs : List String) (row : Row) :
    ((App.validateRow fs row).map (fun i => fieldRank i.field)).Sublist [0, 1, 2, 3, 4, 5] := by
  show List.Sublist _ ([0] ++ [1] ++ [2] ++ [3] ++ [4] ++ [5])
  simp only [App.validateRow, List.map_append]
  refine List.Sublist.append (List.Sublist.append (List.Sublist.append (List.Sublist.append
    (List.Sublist.append ?_ ?_) ?_) ?_) ?_) ?_ <;>
    exact sublist_if_block _ _ rfl

theorem validateRow_pairwise (fs : List String) (row : Row) :
    ((App.validateRow fs row).map (fun i => fieldRank i.field)).Pairwise (· < ·) :=
  List.Pairwise.sublist (validateRow_ranks_sublist fs row) (by decide)

/-- C10: the error map of `validate_excel_data` holds a key for a row
index exactly when that row has at least one issue (and then maps it to
that row's issue list), and the issues of any row are ordered by the fixed
field order Associate Email (0), CL Email (1), PM Email (2),
AssociateID (3), AssociateName (4), KRA File (5) — their `fieldRank`s are
strictly increasing. -/
theorem c10_error_map_structure (fs : List String) (df : List Row) (i : Nat)
    (issues : List Issue) (row : Row) :
    (((i, issues) ∈ App.validate_excel_data fs df) ↔
      ∃ r, df[i]? = some r ∧ issues = App.validateRow fs r ∧ issues ≠ [])
  ∧ ((App.validateRow fs row).map (fun is => fieldRank is.field)).Pairwise (· < ·) :=
  ⟨validate_excel_data_mem_iff fs df i issues, validateRow_pairwise fs row⟩

/-- C7 counterexample: the built-in default template contains no
year-range placeholder at all (the year text "2025-26" is hardcoded in the
template body), so the claimed year-range substitution never happens:
rendering with a deliberately wrong year-range value produces exactly the
same output, which still shows "2025-26" and never the supplied value. -/
theorem c7_counterexample :
    strContains App.default_template "year_range" = false
  ∧ App.renderTemplate App.default_template "Jane Doe" "9999-00"
      = App.renderTemplate App.default_template "Jane Doe" "2025-26"
  ∧ strContains (App.renderTemplate App.default_template "Jane Doe" "9999-00") "2025-26" = true
  ∧ strContains (App.renderTemplate App.default_template "Jane Doe" "9999-00") "9999-00"
      = false := by
  refine ⟨by decide, by decide, by decide, by decide⟩

/-- C7 (amended): rendering the built-in default template with associate
name "Jane Doe" when the current year is 2025 substitutes the
associate-name placeholder with "Jane Doe" and leaves no unresolved
placeholder tokens in the output; the output shows "2025-26" because that
text is hardcoded in the template, not because of a year-range
substitution — the default template contains no year-range placeholder. -/
theorem c7_default_template_render :
    App.get_year_range 2025 = "2025-26"
  ∧ strContains App.default_template "\x7b\x7b associate \x7d\x7d" = true
  ∧ strContains (App.renderTemplate App.default_template "Jane Doe" (App.get_year_range 2025))
      "Jane Doe" = true
  ∧ strContains (App.renderTemplate App.default_template "Jane Doe" (App.get_year_range 2025))
      "2025-26" = true
  ∧ strContains (App.renderTemplate App.default_template "Jane Doe" (App.get_year_range 2025))
      "\x7b\x7b" = false
  ∧ strContains (App.renderTemplate App.default_template "Jane Doe" (App.get_year_range 2025))
      "\x7d\x7d" = false
  ∧ strContains App.default_template "year_range" = false := by
  refine ⟨by decide, by decide, by decide, by decide, by decide, by decide, by decide⟩

/-- C9: when a required transport configuration value is missing,
`send_bulk_emails` raises the configuration error before processing any
row — the result is the error alone, independent of the dataframe or the
transport; when the configuration is complete, the live batch returns one
recorded result per input row even under a transport that fails every
attempt: per-row errors never abort the batch. -/
theorem c9_config_abort_and_row_errors (cfg : Config) (fs : List String)
    (s : Nat → Nat → Bool) (dry : Bool) (df : List Row) (t : String) (y : Nat) (k : String) :
    (App.missingConfigKey cfg = some k →
      App.send_bulk_emails cfg fs s dry df t y
        = .error ("Missing email config: " ++ k ++ " is not set in .env"))
  ∧ (App.missingConfigKey cfg = none →
      ∃ rs, App.send_bulk_emails cfg fs (fun _ _ => false) false df t y = .ok rs
        ∧ rs.length = df.length) := by
  constructor
  · intro h
    unfold App.send_bulk_emails
    rw [h]
  · intro h
    unfold App.send_bulk_emails
    rw [h]
    exact ⟨_, rfl, mapRows_length fs (fun _ _ => false) false t (App.get_year_range y) 0 df⟩

theorem c9_witness :
    App.missingConfigKey ⟨none, 25, some "user@senecaglobal.com"⟩ = some "MAIL_SERVER"
  ∧ App.send_bulk_emails ⟨none, 25, some "user@senecaglobal.com"⟩ [] (fun _ _ => false) false
      [⟨"x", "x", "x", "x", "x"⟩] "t" 2025
    = .error "Missing email config: MAIL_SERVER is not set in .env" := by
  refine ⟨by decide, ?_⟩
  exact (c9_config_abort_and_row_errors ⟨none, 25, some "user@senecaglobal.com"⟩ []
    (fun _ _ => false) false [⟨"x", "x", "x", "x", "x"⟩] "t" 2025 "MAIL_SERVER").1 (by decide)

/-- C3 counterexample: in send_kra_emails.py the retry loop is
`for attempt in range(1, retries + 1)`, so with its configured `retries=3`
a dispatched row whose transport fails every attempt gets exactly 3
delivery attempts — not the `retries + 1 = 4` the claim requires of every
live dispatch. -/
theorem c3_counterexample :
    attemptCount (Kra.processRow ["kra_files/Jane Doe.pdf"] (fun _ => false) false "t"
      ⟨"N1070", "Jane Doe", "jane.doe@senecaglobal.com", "cl@senecaglobal.com",
        "pm@senecaglobal.com"⟩).events = 3
  ∧ attemptCount (Kra.processRow ["kra_files/Jane Doe.pdf"] (fun _ => false) false "t"
      ⟨"N1070", "Jane Doe", "jane.doe@senecaglobal.com", "cl@senecaglobal.com",
        "pm@senecaglobal.com"⟩).events ≠ 3 + 1 := by
  refine ⟨by decide, by decide⟩

/-- C3 (amended): against a transport that fails on every attempt, app.py's
`send_email_with_retry` makes exactly `retries + 1` delivery attempts while
send_kra_emails.py's makes exactly `retries`; in both, every failed attempt
is followed by a pause of the configured delay (so consecutive attempts are
spaced by it); and the live batch in app.py records each such row as
`[FAILED]` and still processes every subsequent row of the dataframe. -/
theorem c3_retry_behaviour (toEmail : String) (att : Bool) (retries : Nat) (delay : Rat)
    (cfg : Config) (fs : List String) (df : List Row) (t : String) (y : Nat)
    (hcfg : App.missingConfigKey cfg = none) :
    App.send_email_with_retry (fun _ => false) toEmail att retries delay
      = (false, failTrace toEmail att delay 1 (retries + 1))
  ∧ attemptCount (App.send_email_with_retry (fun _ => false) toEmail att retries delay).2
      = retries + 1
  ∧ Kra.send_email_with_retry (fun _ => false) toEmail att retries delay
      = (false, failTrace toEmail att delay 1 retries)
  ∧ attemptCount (Kra.send_email_with_retry (fun _ => false) toEmail att retries delay).2
      = retries
  ∧ App.send_bulk_emails cfg fs (fun _ _ => false) false df t y
      = .ok (df.map fun row =>
          ⟨"[FAILED] Could not send email to " ++ pyStrip row.associateName ++ " with "
            ++ pyStrip row.associateEmail,
            App.renderTemplate t (pyStrip row.associateName) (App.get_year_range y),
            failTrace (pyStrip row.associateEmail)
              (fs.contains (App.kraDir ++ pyStrip row.associateName ++ ".pdf")) (1 / 2) 1 2⟩) := by
  refine ⟨?_, ?_, ?_, ?_, ?_⟩
  · exact retryFrom_const_false toEmail att delay (retries + 1) 1
  · rw [App.send_email_with_retry, retryFrom_const_false toEmail att delay (retries + 1) 1]
    exact attemptCount_failTrace toEmail att delay (retries + 1) 1
  · exact retryFrom_const_false toEmail att delay retries 1
  · rw [Kra.send_email_with_retry, retryFrom_const_false toEmail att delay retries 1]
    exact attemptCount_failTrace toEmail att delay retries 1
  · unfold App.send_bulk_emails
    rw [hcfg, mapRows_fail fs t (App.get_year_range y) 0 df]

theorem c3_witness :
    App.missingConfigKey ⟨some "smtp.example.com", 25, some "user@senecaglobal.com"⟩ = none
  ∧ attemptCount (App.send_email_with_retry (fun _ => false) "a@senecaglobal.com" true 1
      (1 / 2)).2 = 1 + 1
  ∧ attemptCount (Kra.send_email_with_retry (fun _ => false) "a@senecaglobal.com" true 1
      (1 / 2)).2 = 1 := by
  refine ⟨by decide, ?_, ?_⟩
  · exact (c3_retry_behaviour "a@senecaglobal.com" true 1 (1 / 2)
      ⟨some "smtp.example.com", 25, some "user@senecaglobal.com"⟩ [] [] "t" 2025
      (by decide)).2.1
  · exact (c3_retry_behaviour "a@senecaglobal.com" true 1 (1 / 2)
      ⟨some "smtp.example.com", 25, some "user@senecaglobal.com"⟩ [] [] "t" 2025
      (by decide)).2.2.2.1

/-- C4: in dry-run mode the transport layer is never consulted — the batch
result is identical for any two transport behaviours and every row result
carries no transport events; a dry run reached through the UI (which
requires every row to have passed validation) yields exactly one preview
entry per row, in input order; and a send_kra_emails.py dry run likewise
previews a row whose attachment exists without any transport event. -/
theorem c4_dry_run_preview (cfg : Config) (fs : List String) (s1 s2 s : Nat → Nat → Bool)
    (sk : Nat → Bool) (df : List Row) (t : String) (y : Nat)
    (res : Except String (List App.RowResult)) (row : Row) :
    App.send_bulk_emails cfg fs s1 true df t y = App.send_bulk_emails cfg fs s2 true df t y
  ∧ (∀ rs, App.send_bulk_emails cfg fs s true df t y = .ok rs → ∀ r ∈ rs, r.events = [])
  ∧ (App.missingConfigKey cfg = none → App.dryRunButton cfg fs s df t y = .ran res →
      res = .ok (df.map fun r =>
        ⟨"[DRY-RUN] Able to send to " ++ pyStrip r.associateName ++ " with "
          ++ pyStrip r.associateEmail ++ " | CC: "
          ++ pyReprList [pyStrip r.clEmail, pyStrip r.pmEmail],
          App.renderTemplate t (pyStrip r.associateName) (App.get_year_range y), []⟩))
  ∧ (fs.contains ("kra_files/" ++ (row.associateName ++ ".pdf")) = true →
      Kra.processRow fs sk true t row
        = ⟨["[DRY-RUN] Would send to " ++ row.associateName ++ " (" ++ row.associateEmail
            ++ "), CC: " ++ pyReprList [row.clEmail, row.pmEmail] ++ ", File: "
            ++ (row.associateName ++ ".pdf")], some (Kra.render t row.associateName), []⟩) := by
  refine ⟨?_, ?_, ?_, ?_⟩
  · unfold App.send_bulk_emails
    cases hc : App.missingConfigKey cfg with
    | some k => rfl
    | none => rw [mapRows_dry fs s1 t (App.get_year_range y) 0 df,
        mapRows_dry fs s2 t (App.get_year_range y) 0 df]
  · intro rs h r hr
    unfold App.send_bulk_emails at h
    cases hc : App.missingConfigKey cfg with
    | some k => rw [hc] at h; exact absurd h (by simp)
    | none =>
      rw [hc] at h
      have hrs : rs = App.mapRows fs s true t (App.get_year_range y) 0 df :=
        (Except.ok.injEq _ _).mp h.symm
      rw [hrs, mapRows_dry fs s t (App.get_year_range y) 0 df] at hr
      obtain ⟨r0, _, hr0⟩ := List.mem_map.mp hr
      rw [← hr0]
  · intro hcfg h
    unfold App.dryRunButton at h
    by_cases h1 : (pyStrip t).data.isEmpty
    · rw [if_pos h1] at h
      exact absurd h (by simp)
    · rw [if_neg h1] at h
      by_cases h2 : (App.validate_excel_data fs df).isEmpty
      · rw [if_pos h2] at h
        have hres : App.send_bulk_emails cfg fs s true df t y = res := by
          injection h
        rw [← hres]
        unfold App.send_bulk_emails
        rw [hcfg, mapRows_dry fs s t (App.get_year_range y) 0 df]
      · rw [if_neg h2] at h
        exact absurd h (by simp)
  · intro hfile
    have hmem : ("kra_files/" ++ (row.associateName ++ ".pdf")) ∈ fs := by
      simpa using hfile
    simp [Kra.processRow, hmem]

theorem c4_witness :
    Kra.processRow ["kra_files/Jane Doe.pdf"] (fun _ => false) true "t"
      ⟨"N1070", "Jane Doe", "jane.doe@senecaglobal.com", "cl@senecaglobal.com",
        "pm@senecaglobal.com"⟩
    = ⟨["[DRY-RUN] Would send to Jane Doe (jane.doe@senecaglobal.com), CC: [\'cl@senecaglobal.com\', \'pm@senecaglobal.com\'], File: Jane Doe.pdf"],
        some "t", []⟩ :=
  (c4_dry_run_preview ⟨some "smtp.example.com", 25, some "user@senecaglobal.com"⟩
    ["kra_files/Jane Doe.pdf"] (fun _ _ => false) (fun _ _ => false) (fun _ _ => false)
    (fun _ => false) [] "t" 2025 (.ok [])
    ⟨"N1070", "Jane Doe", "jane.doe@senecaglobal.com", "cl@senecaglobal.com",
      "pm@senecaglobal.com"⟩).2.2.2 (by decide)

/-- C1 counterexample: a row that fails every validation rule (and is in
particular not in the set of rows that passed validation) is nonetheless
dispatched by the "Send Emails" handler: the live path performs no
validation, builds the message, and hands it to the transport — here the
transport is invoked twice before the row is recorded as failed. -/
theorem c1_counterexample :
    App.validateRow [] ⟨"x", "x", "x", "x", "x"⟩ ≠ []
  ∧ App.sendEmailsButton ⟨some "smtp.example.com", 25, some "user@senecaglobal.com"⟩ []
      (fun _ _ => false) [⟨"x", "x", "x", "x", "x"⟩] "t" 2025
    = .ran (.ok [⟨"[FAILED] Could not send email to x with x", "t",
        [.attempt "x" 1 false, .sleep (1 / 2), .attempt "x" 2 false, .sleep (1 / 2)]⟩]) :=
  ⟨by decide, rfl⟩

/-- C1 (amended): the Dry Run handler previews rows only when every row of
the batch passed validation (its ordered issue list is empty); within
`send_bulk_emails` dry-run and live iterate exactly the same rows — all of
the dataframe — and render identical bodies, differing only in whether
transport events occur; but the live "Send Emails" path applies no
validation gate of its own, so live dispatch is not restricted to
validated rows. -/
theorem c1_dispatch_validation (cfg : Config) (fs : List String)
    (s s1 s2 : Nat → Nat → Bool) (df : List Row) (t : String) (y : Nat)
    (res : Except String (List App.RowResult)) :
    (App.dryRunButton cfg fs s df t y = .ran res → ∀ row ∈ df, App.validateRow fs row = [])
  ∧ (App.missingConfigKey cfg = none →
      ∃ rd rl, App.send_bulk_emails cfg fs s1 true df t y = .ok rd
        ∧ App.send_bulk_emails cfg fs s2 false df t y = .ok rl
        ∧ rd.map App.RowResult.body = rl.map App.RowResult.body
        ∧ rd.length = df.length ∧ rl.length = df.length
        ∧ (∀ r ∈ rd, r.events = [])) := by
  constructor
  · intro h row hrow
    unfold App.dryRunButton at h
    by_cases h1 : (pyStrip t).data.isEmpty
    · rw [if_pos h1] at h
      exact absurd h (by simp)
    · rw [if_neg h1] at h
      by_cases h2 : (App.validate_excel_data fs df).isEmpty
      · have hnil : App.validate_excel_data fs df = [] := by simpa using h2
        exact (validate_excel_data_nil_iff fs df).mp hnil row hrow
      · rw [if_neg h2] at h
        exact absurd h (by simp)
  · intro hcfg
    have hd : App.send_bulk_emails cfg fs s1 true df t y
        = .ok (App.mapRows fs s1 true t (App.get_year_range y) 0 df) := by
      unfold App.send_bulk_emails
      rw [hcfg]
    have hl : App.send_bulk_emails cfg fs s2 false df t y
        = .ok (App.mapRows fs s2 false t (App.get_year_range y) 0 df) := by
      unfold App.send_bulk_emails
      rw [hcfg]
    refine ⟨_, _, hd, hl, ?_, ?_, ?_, ?_⟩
    · rw [mapRows_bodies fs s1 true t (App.get_year_range y) 0 df,
        mapRows_bodies fs s2 false t (App.get_year_range y) 0 df]
    · exact mapRows_length fs s1 true t (App.get_year_range y) 0 df
    · exact mapRows_length fs s2 false t (App.get_year_range y) 0 df
    · intro r hr
      rw [mapRows_dry fs s1 t (App.get_year_range y) 0 df] at hr
      obtain ⟨r0, _, hr0⟩ := List.mem_map.mp hr
      rw [← hr0]

theorem c1_witness :
    App.validateRow [".temp/kra_files/pdf_files/Jane Doe.pdf"]
      ⟨"N1070", "Jane Doe", "jane.doe@senecaglobal.com", "cl@senecaglobal.com",
        "pm@senecaglobal.com"⟩ = [] :=
  (c1_dispatch_validation ⟨some "smtp.example.com", 25, some "user@senecaglobal.com"⟩
    [".temp/kra_files/pdf_files/Jane Doe.pdf"] (fun _ _ => true) (fun _ _ => true)
    (fun _ _ => true)
    [⟨"N1070", "Jane Doe", "jane.doe@senecaglobal.com", "cl@senecaglobal.com",
      "pm@senecaglobal.com"⟩] "t" 2025 _).1 rfl _ (by decide)

/-- C2 counterexample: a row whose PDF attachment is absent but whose
other fields are all valid (validation records only the KRA-file issue) is
still dispatched by app.py's live "Send Emails" path: the transport is
invoked and the message goes out without the attachment, reported as
`[SENT]` — dispatch is neither skipped nor blocked. -/
theorem c2_counterexample :
    App.validateRow [] ⟨"N1070", "Jane Doe", "jane.doe@senecaglobal.com", "cl@senecaglobal.com",
        "pm@senecaglobal.com"⟩
      = [⟨"KRA File", "Missing KRA file for Jane Doe", ""⟩]
  ∧ App.sendEmailsButton ⟨some "smtp.example.com", 25, some "user@senecaglobal.com"⟩ []
      (fun _ _ => true)
      [⟨"N1070", "Jane Doe", "jane.doe@senecaglobal.com", "cl@senecaglobal.com",
        "pm@senecaglobal.com"⟩] "t" 2025
    = .ran (.ok [⟨"[SENT] Email sent to Jane Doe with jane.doe@senecaglobal.com | CC: [\'cl@senecaglobal.com\', \'pm@senecaglobal.com\']",
        "t", [.attempt "jane.doe@senecaglobal.com" 1 false]⟩]) :=
  ⟨by decide, rfl⟩

/-- C2 (amended): in send_kra_emails.py a row whose attachment file is
absent is skipped before any message is built (a warning is logged, no
body, no transport event); in app.py the missing file is a validation
issue, so the Dry Run path refuses to dispatch the batch; but app.py's
live "Send Emails" path still dispatches such a row, merely omitting the
attachment. -/
theorem c2_missing_attachment (fs : List String) (sk : Nat → Bool) (s : Nat → Nat → Bool)
    (dry : Bool) (t : String) (row : Row) (cfg : Config) (df : List Row) (y : Nat)
    (res : Except String (List App.RowResult)) :
    (fs.contains ("kra_files/" ++ (row.associateName ++ ".pdf")) = false →
      Kra.processRow fs sk dry t row
        = ⟨["Missing KRA file for " ++ row.associateName ++ ": "
            ++ ("kra_files/" ++ (row.associateName ++ ".pdf"))], none, []⟩)
  ∧ (row ∈ df → fs.contains (App.kraDir ++ pyStrip row.associateName ++ ".pdf") = false →
      App.dryRunButton cfg fs s df t y ≠ .ran res) := by
  constructor
  · intro hmiss
    have hmem : ("kra_files/" ++ (row.associateName ++ ".pdf")) ∉ fs := by
      simpa using hmiss
    simp [Kra.processRow, hmem]
  · intro hrow hmiss heq
    have hne : App.validateRow fs row ≠ [] := by
      simp only [App.validateRow, hmiss]
      simp
    have herr : App.validate_excel_data fs df ≠ [] := fun hnil =>
      hne ((validate_excel_data_nil_iff fs df).mp hnil row hrow)
    unfold App.dryRunButton at heq
    by_cases h1 : (pyStrip t).data.isEmpty
    · rw [if_pos h1] at heq
      exact absurd heq (by simp)
    · rw [if_neg h1] at heq
      have h2 : ¬ (App.validate_excel_data fs df).isEmpty = true := by
        simpa using herr
      rw [if_neg h2] at heq
      exact absurd heq (by simp)

theorem c2_witness :
    Kra.processRow [] (fun _ => false) false "t"
      ⟨"N1070", "Jane Doe", "jane.doe@senecaglobal.com", "cl@senecaglobal.com",
        "pm@senecaglobal.com"⟩
      = ⟨["Missing KRA file for Jane Doe: kra_files/Jane Doe.pdf"], none, []⟩
  ∧ App.dryRunButton ⟨some "smtp.example.com", 25, some "user@senecaglobal.com"⟩ []
      (fun _ _ => true)
      [⟨"N1070", "Jane Doe", "jane.doe@senecaglobal.com", "cl@senecaglobal.com",
        "pm@senecaglobal.com"⟩] "t" 2025 ≠ .ran (.ok []) := by
  constructor
  · exact (c2_missing_attachment [] (fun _ => false) (fun _ _ => true) false "t"
      ⟨"N1070", "Jane Doe", "jane.doe@senecaglobal.com", "cl@senecaglobal.com",
        "pm@senecaglobal.com"⟩ ⟨some "smtp.example.com", 25, some "user@senecaglobal.com"⟩
      [⟨"N1070", "Jane Doe", "jane.doe@senecaglobal.com", "cl@senecaglobal.com",
        "pm@senecaglobal.com"⟩] 2025 (.ok [])).1 (by decide)
  · exact (c2_missing_attachment [] (fun _ => false) (fun _ _ => true) false "t"
      ⟨"N1070", "Jane Doe", "jane.doe@senecaglobal.com", "cl@senecaglobal.com",
        "pm@senecaglobal.com"⟩ ⟨some "smtp.example.com", 25, some "user@senecaglobal.com"⟩
      [⟨"N1070", "Jane Doe", "jane.doe@senecaglobal.com", "cl@senecaglobal.com",
        "pm@senecaglobal.com"⟩] 2025 (.ok [])).2 (by decide) (by decide)
